import Mathlib

/-!
# MedGuard dashboard: dataset-registry loader and metric rendering

Shallow embedding of `src/medguard_dashboard.py`, centred on
`MedGuardDashboard.load_data` (lines 128-156) and the parts of
`MedGuardDashboard.render_key_metrics` / `run` that consume the registry.

Modelling decisions:
* A file on disk is a `DataFile`: its stem, its extension, and the outcome
  each external parser (`xr.open_dataset`, `xr.open_dataarray`,
  `gpd.read_file`, `pd.read_csv`) would produce on its content, as `Option`
  fields (`none` = that parser raises on this content).  The parsers are
  third-party library code, so they are treated as oracles attached to the
  file; the repository's own control flow around them is embedded exactly.
* The data directory is `Option Directory`: `none` models
  `self.data_dir.exists()` returning `False`.
* `self.datasets` (a Python dict) is an association list with
  update-in-place insertion, matching dict assignment semantics.
* Numeric values are rationals; `mean` of a gridded dataset is the sum of
  its values divided by their count, as `xarray`'s global mean computes.
* Fallible rendering paths return `Option`: `none` models a raised
  exception escaping to the top-level handler.
-/

namespace MedGuard

/-- Gridded Multi-Variable Dataset (what `xr.open_dataset` yields): its
numeric cell values, flattened.  Coordinate structure is irrelevant to the
aggregate statistics the dashboard computes. -/
structure GriddedDataset where
  values : List ℚ
  deriving DecidableEq

/-- Gridded Single-Variable Array (what `xr.open_dataarray` yields). -/
structure GriddedArray where
  values : List ℚ
  deriving DecidableEq

/-- Vector Feature Collection (what `gpd.read_file` yields): a sequence of
features, each a list of named scalar attributes (geometry abstracted). -/
structure VectorFC where
  features : List (List (String × ℚ))
  deriving DecidableEq

/-- Tabular Record Set (what `pd.read_csv` yields): a sequence of rows of
named scalar fields. -/
structure TabularRS where
  rows : List (List (String × ℚ))
  deriving DecidableEq

/-- A value stored in `self.datasets`: exactly the four types the loader
can produce (lines 136, 140, 148, 154 of the source). -/
inductive DatasetValue
  | dataset (d : GriddedDataset)
  | dataarray (a : GriddedArray)
  | geodataframe (g : VectorFC)
  | dataframe (t : TabularRS)
  deriving DecidableEq

/-- A file in the data directory: stem, extension, and the result each of
the four parsers would give on its content (`none` = the parser raises). -/
structure DataFile where
  stem : String
  ext : String
  parse_dataset : Option GriddedDataset
  parse_dataarray : Option GriddedArray
  parse_geo : Option VectorFC
  parse_csv : Option TabularRS
  deriving DecidableEq

/-- The data directory: its files, in directory-listing order. -/
structure Directory where
  files : List DataFile
  deriving DecidableEq

/-- `self.datasets`: a stem-keyed mapping, as an association list. -/
abbrev Registry := List (String × DatasetValue)

/-- Python dict assignment `self.datasets[k] = v`: replace in place when
the key exists, append otherwise. -/
def Registry.insert (reg : Registry) (k : String) (v : DatasetValue) : Registry :=
  if reg.any (fun p => p.1 = k) then
    reg.map (fun p => if p.1 = k then (k, v) else p)
  else reg ++ [(k, v)]

/-- Python dict lookup `self.datasets.get(k)` / `k in self.datasets`. -/
def Registry.find (reg : Registry) (k : String) : Option DatasetValue :=
  (reg.find? (fun p => p.1 = k)).map Prod.snd

/-- `self.data_dir.glob('*.<e>')`: the directory's files with extension
`e`, in listing order. -/
def glob (dir : Directory) (e : String) : List DataFile :=
  dir.files.filter (fun f => f.ext = e)

/-- Lines 134-143: one `.nc` file.  `try: xr.open_dataset` and store; on
failure `try: xr.open_dataarray` and store; on failure `pass`. -/
def loadNcFile (reg : Registry) (f : DataFile) : Registry :=
  match f.parse_dataset with
  | some d => reg.insert f.stem (.dataset d)
  | none =>
    match f.parse_dataarray with
    | some a => reg.insert f.stem (.dataarray a)
    | none => reg

/-- Lines 146-150: one `.geojson` file.  `try: gpd.read_file` and store;
on failure `pass`. -/
def loadGeojsonFile (reg : Registry) (f : DataFile) : Registry :=
  match f.parse_geo with
  | some g => reg.insert f.stem (.geodataframe g)
  | none => reg

/-- Lines 152-156: one `.csv` file.  `try: pd.read_csv` and store; on
failure `pass`. -/
def loadCsvFile (reg : Registry) (f : DataFile) : Registry :=
  match f.parse_csv with
  | some t => reg.insert f.stem (.dataframe t)
  | none => reg

/-- `MedGuardDashboard.load_data` (lines 128-156): start from an empty
dict; if the directory exists, load every `.nc` file, then every
`.geojson` file, then every `.csv` file. -/
def load_data : Option Directory → Registry
  | none => []
  | some dir =>
    let reg1 := (glob dir "nc").foldl loadNcFile []
    let reg2 := (glob dir "geojson").foldl loadGeojsonFile reg1
    (glob dir "csv").foldl loadCsvFile reg2

/-- Global mean of a list of values, as `xarray`'s `.mean()` computes it
over all cells. -/
def listMean (l : List ℚ) : ℚ := l.sum / l.length

/-- Quantile of a list of values: the sorted list indexed at
`⌊q * (n - 1)⌋` (a deterministic rendering of `xarray`'s `.quantile`). -/
def listQuantile (q : ℚ) (l : List ℚ) : ℚ :=
  let s := l.mergeSort (fun a b => a ≤ b)
  s.getD (⌊q * ((l.length : ℚ) - 1)⌋).toNat 0

/-- `float(data.mean())`: defined for the gridded variants the dashboard
computes means of; `none` models the conversion raising on other types. -/
def DatasetValue.meanAgg : DatasetValue → Option ℚ
  | .dataset d => some (listMean d.values)
  | .dataarray a => some (listMean a.values)
  | _ => none

/-- `data.quantile(q)` on a gridded variant; `none` on other types. -/
def DatasetValue.quantAgg (q : ℚ) : DatasetValue → Option ℚ
  | .dataset d => some (listQuantile q d.values)
  | .dataarray a => some (listQuantile q a.values)
  | _ => none

/-- `len(data)` as the dashboard uses it: row count for a tabular set,
feature count for a vector collection; `none` elsewhere (the dashboard
only takes `len` of these two). -/
def DatasetValue.numRows : DatasetValue → Option ℕ
  | .geodataframe g => some g.features.length
  | .dataframe t => some t.rows.length
  | _ => none

/-- What one column of `render_key_metrics` puts on the page: either a
styled metric card carrying a value derived from a dataset and a status
label (the `st.markdown` card path), or a plain `st.metric` fallback with
a fixed name and placeholder text. -/
inductive ColDisplay
  | card (value : ℚ) (label : String)
  | stMetric (name : String) (placeholderText : String)
  deriving DecidableEq

/-- Lines 191-192: `"CRITICAL" if mean_risk > 0.6 else "WARNING" if
mean_risk > 0.3 else "SAFE"`. -/
def riskClass (m : ℚ) : String :=
  if m > 6/10 then "CRITICAL" else if m > 3/10 then "WARNING" else "SAFE"

/-- Column 1 of `render_key_metrics` (lines 187-204): if
`overfishing_risk_index` is present, a card with its mean and risk class;
otherwise `st.metric("Risk Index", "Loading...", "")`.  `none` models an
exception (e.g. `float(...)` on a non-gridded value) escaping. -/
def renderRiskMetric (reg : Registry) : Option ColDisplay :=
  match reg.find "overfishing_risk_index" with
  | some v => v.meanAgg.map (fun m => ColDisplay.card m (riskClass m))
  | none => some (.stMetric "Risk Index" "Loading...")

/-- Column 2 (lines 206-220): habitat-quality card, else
`st.metric("Habitat Quality", "N/A", "")`. -/
def renderHabitatMetric (reg : Registry) : Option ColDisplay :=
  match reg.find "habitat_quality_index" with
  | some v => v.meanAgg.map (fun m => ColDisplay.card m "OUT OF 1.0")
  | none => some (.stMetric "Habitat Quality" "N/A")

/-- Column 3 (lines 222-236): larval-connectivity card, else
`st.metric("Connectivity", "N/A", "")`. -/
def renderConnectivityMetric (reg : Registry) : Option ColDisplay :=
  match reg.find "larval_connectivity" with
  | some v => v.meanAgg.map (fun m => ColDisplay.card m "NETWORK STRENGTH")
  | none => some (.stMetric "Connectivity" "N/A")

/-- Column 4 (lines 238-259): if `illegal_fishing_suspects` is present, a
card with `len(...)` flagged vessels; otherwise a card reading `✓ 0` /
`ALL CLEAR` (lines 251-259). -/
def renderAlertsMetric (reg : Registry) : Option ColDisplay :=
  match reg.find "illegal_fishing_suspects" with
  | some v => v.numRows.map (fun n => ColDisplay.card n "VESSELS FLAGGED")
  | none => some (.card 0 "ALL CLEAR")

/-- `create_risk_map_3d` (lines 261-266): returns `None` when
`overfishing_risk_index` is absent, else a figure built from that dataset
(figure construction abstracted to the dataset it renders). -/
def create_risk_map_3d (reg : Registry) : Option DatasetValue :=
  reg.find "overfishing_risk_index"

/-- What the Risk Assessment tab shows for the 3D map. -/
inductive TabDisplay
  | chart (data : DatasetValue)
  | infoMsg (msg : String)
  deriving DecidableEq

/-- `run`, lines 594-598: plot the figure if `create_risk_map_3d` returned
one, else `st.info(...)` with a processing hint. -/
def renderTab1RiskMap (reg : Registry) : TabDisplay :=
  match create_risk_map_3d reg with
  | some f => .chart f
  | none => .infoMsg "Risk data is being processed. Please run the processing pipeline first."

/-- Modelled from the spec: "each rendering function must explicitly check
for absence and display a neutral ·not yet available· placeholder instead
of failing", "rather than failing or asserting a substantive result about
the data".  A neutral placeholder is a display that reports no value about
the data: the plain `st.metric` fallback texts.  A metric card always
asserts a substantive value (a mean, a count, a status) about the
dataset. -/
def neutralPlaceholder : ColDisplay → Bool
  | .card _ _ => false
  | .stMetric _ _ => true

/-! ## Registry lemmas -/

theorem Registry.find_map_replace_ne (reg : Registry) (k s : String)
    (v : DatasetValue) (hne : s ≠ k) :
    (reg.map (fun p => if p.1 = k then (k, v) else p)).find?
        (fun p => p.1 = s) = reg.find? (fun p => p.1 = s) := by
  induction reg with
  | nil => rfl
  | cons p reg ih =>
    have hks : k ≠ s := Ne.symm hne
    rw [List.map_cons]
    by_cases hp : p.1 = k
    · rw [if_pos hp,
        List.find?_cons_of_neg _ (by simp [hks]),
        List.find?_cons_of_neg _ (by simp [hp, hks]), ih]
    · rw [if_neg hp]
      by_cases hps : p.1 = s
      · rw [List.find?_cons_of_pos _ (by simp [hps]),
          List.find?_cons_of_pos _ (by simp [hps])]
      · rw [List.find?_cons_of_neg _ (by simp [hps]),
          List.find?_cons_of_neg _ (by simp [hps]), ih]

theorem Registry.find_map_replace_self (reg : Registry) (k : String)
    (v : DatasetValue)
    (hany : reg.any (fun p => p.1 = k) = true) :
    (reg.map (fun p => if p.1 = k then (k, v) else p)).find?
        (fun p => p.1 = k) = some (k, v) := by
  induction reg with
  | nil => simp at hany
  | cons p reg ih =>
    by_cases hp : p.1 = k
    · simp [List.find?, hp]
    · simp only [List.any_cons, Bool.or_eq_true, decide_eq_true_eq] at hany
      rcases hany with h | h
      · exact absurd h hp
      · simp [List.find?, hp, ih h]

theorem Registry.find_insert (reg : Registry) (k s : String) (v : DatasetValue) :
    (reg.insert k v).find s = if s = k then some v else reg.find s := by
  by_cases hany : reg.any (fun p => p.1 = k) = true
  · by_cases hsk : s = k
    · subst hsk
      simp [Registry.insert, Registry.find, hany,
        Registry.find_map_replace_self reg s v hany]
    · simp [Registry.insert, Registry.find, hany, hsk,
        Registry.find_map_replace_ne reg k s v hsk]
  · have hnone : reg.find? (fun p => (p.1 = k : Bool)) = none := by
      rw [List.find?_eq_none]
      intro x hx hxk
      exact hany (List.any_eq_true.mpr ⟨x, hx, hxk⟩)
    by_cases hsk : s = k
    · subst hsk
      simp [Registry.insert, Registry.find, hany, List.find?_append, hnone]
    · simp only [Registry.insert, hany, if_false, Bool.false_eq_true]
      simp [Registry.find, List.find?_append, hsk, Ne.symm hsk]

theorem Registry.keys_insert (reg : Registry) (k : String) (v : DatasetValue) :
    (reg.insert k v).map Prod.fst =
      if reg.any (fun p => p.1 = k) = true then reg.map Prod.fst
      else reg.map Prod.fst ++ [k] := by
  by_cases hany : reg.any (fun p => p.1 = k) = true
  · simp only [Registry.insert, hany, if_true, List.map_map]
    refine List.map_congr_left (fun p _ => ?_)
    by_cases hp : p.1 = k <;> simp [hp]
  · simp [Registry.insert, hany]

theorem Registry.nodup_keys_insert (reg : Registry) (k : String) (v : DatasetValue)
    (h : (reg.map Prod.fst).Nodup) : ((reg.insert k v).map Prod.fst).Nodup := by
  rw [Registry.keys_insert]
  by_cases hany : reg.any (fun p => p.1 = k) = true
  · simpa [hany] using h
  · have hk : k ∉ reg.map Prod.fst := by
      intro hmem
      rcases List.mem_map.mp hmem with ⟨p, hp, hpk⟩
      exact hany (List.any_eq_true.mpr ⟨p, hp, by simp [hpk]⟩)
    simp only [hany, if_false, Bool.false_eq_true]
    refine List.Nodup.append h (List.nodup_singleton k) ?_
    intro a ha hmem
    rw [List.mem_singleton] at hmem
    subst hmem
    exact hk ha

/-! ## Loader-step lemmas -/

/-- A file whose content fails to parse as the variant(s) its extension is
loaded as: both gridded parses fail for `.nc`, the vector parse fails for
`.geojson`, the tabular parse fails for `.csv`. -/
def failsToParse (f : DataFile) : Prop :=
  (f.ext = "nc" → f.parse_dataset = none ∧ f.parse_dataarray = none) ∧
  (f.ext = "geojson" → f.parse_geo = none) ∧
  (f.ext = "csv" → f.parse_csv = none)

instance (f : DataFile) : Decidable (failsToParse f) := by
  unfold failsToParse
  infer_instance

theorem find_loadNcFile (reg : Registry) (f : DataFile) (s : String)
    (h : f.stem = s → f.parse_dataset = none ∧ f.parse_dataarray = none) :
    (loadNcFile reg f).find s = reg.find s := by
  unfold loadNcFile
  have hne : f.parse_dataset ≠ none ∨ f.parse_dataarray ≠ none → ¬ s = f.stem := by
    intro hp hs
    rcases h hs.symm with ⟨h1, h2⟩
    rcases hp with hp | hp
    · exact hp h1
    · exact hp h2
  cases hd : f.parse_dataset with
  | some d =>
    rw [Registry.find_insert]
    simp [hne (Or.inl (by simp [hd]))]
  | none =>
    cases ha : f.parse_dataarray with
    | some a =>
      rw [Registry.find_insert]
      simp [hne (Or.inr (by simp [ha]))]
    | none => rfl

theorem find_loadGeojsonFile (reg : Registry) (f : DataFile) (s : String)
    (h : f.stem = s → f.parse_geo = none) :
    (loadGeojsonFile reg f).find s = reg.find s := by
  unfold loadGeojsonFile
  cases hg : f.parse_geo with
  | some g =>
    rw [Registry.find_insert]
    have : ¬ s = f.stem := fun hs => by simp [h hs.symm] at hg
    simp [this]
  | none => rfl

theorem find_loadCsvFile (reg : Registry) (f : DataFile) (s : String)
    (h : f.stem = s → f.parse_csv = none) :
    (loadCsvFile reg f).find s = reg.find s := by
  unfold loadCsvFile
  cases hc : f.parse_csv with
  | some t =>
    rw [Registry.find_insert]
    have : ¬ s = f.stem := fun hs => by simp [h hs.symm] at hc
    simp [this]
  | none => rfl

theorem foldl_find_eq (step : Registry → DataFile → Registry)
    (l : List DataFile) (s : String)
    (hstep : ∀ reg f, f ∈ l → (step reg f).find s = reg.find s)
    (reg : Registry) : (l.foldl step reg).find s = reg.find s := by
  induction l generalizing reg with
  | nil => rfl
  | cons f l ih =>
    rw [List.foldl_cons,
      ih (fun r g hg => hstep r g (List.mem_cons_of_mem f hg)) (step reg f),
      hstep reg f (List.mem_cons_self f l)]

theorem foldl_nodup_keys (step : Registry → DataFile → Registry)
    (l : List DataFile)
    (hstep : ∀ reg f, (reg.map Prod.fst).Nodup → ((step reg f).map Prod.fst).Nodup)
    (reg : Registry) (h : (reg.map Prod.fst).Nodup) :
    ((l.foldl step reg).map Prod.fst).Nodup := by
  induction l generalizing reg with
  | nil => exact h
  | cons f l ih => exact ih (step reg f) (hstep reg f h)

/-! ## Claim theorems -/

/-- C1: a file with a recognized extension whose content fails to parse as
its expected variant(s) contributes no registry entry for its stem — if
every file of the directory carrying stem `s` fails to parse, `load_data`
leaves no entry (partial or null) under `s`.  `load_data` is a total
function, so no exception escapes it. -/
theorem load_data_skips_unparsable (dir : Directory) (s : String)
    (h : ∀ f ∈ dir.files, f.stem = s → failsToParse f) :
    (load_data (some dir)).find s = none := by
  unfold load_data
  rw [foldl_find_eq, foldl_find_eq, foldl_find_eq]
  · rfl
  · intro reg f hf
    have hmem := (List.mem_filter.mp hf)
    refine find_loadNcFile reg f s (fun hs => ?_)
    exact (h f hmem.1 hs).1 (by simpa using hmem.2)
  · intro reg f hf
    have hmem := (List.mem_filter.mp hf)
    refine find_loadGeojsonFile reg f s (fun hs => ?_)
    exact (h f hmem.1 hs).2.1 (by simpa using hmem.2)
  · intro reg f hf
    have hmem := (List.mem_filter.mp hf)
    refine find_loadCsvFile reg f s (fun hs => ?_)
    exact (h f hmem.1 hs).2.2 (by simpa using hmem.2)

/-- C1 witness: a directory holding one corrupted file of each recognized
extension yields no entry for the shared stem. -/
theorem load_data_skips_unparsable_witness :
    (∀ f ∈ (Directory.mk
        [⟨"broken", "nc", none, none, none, none⟩,
         ⟨"broken", "geojson", none, none, none, none⟩,
         ⟨"broken", "csv", none, none, none, none⟩]).files,
        f.stem = "broken" → failsToParse f) ∧
    (load_data (some (Directory.mk
        [⟨"broken", "nc", none, none, none, none⟩,
         ⟨"broken", "geojson", none, none, none, none⟩,
         ⟨"broken", "csv", none, none, none, none⟩]))).find "broken" = none := by
  refine ⟨by decide, ?_⟩
  exact load_data_skips_unparsable _ "broken" (by decide)

/-- C2: a missing data directory, or one with no file of a recognized
extension, yields the empty registry, without an error. -/
theorem load_data_empty_of_missing_or_unrecognized (d : Option Directory)
    (h : d = none ∨ ∃ dir, d = some dir ∧
      ∀ f ∈ dir.files, f.ext ≠ "nc" ∧ f.ext ≠ "geojson" ∧ f.ext ≠ "csv") :
    load_data d = [] := by
  rcases h with rfl | ⟨dir, rfl, hf⟩
  · rfl
  · have h1 : dir.files.filter (fun f => f.ext = "nc") = [] :=
      List.filter_eq_nil_iff.mpr (fun f hmem => by simp [(hf f hmem).1])
    have h2 : dir.files.filter (fun f => f.ext = "geojson") = [] :=
      List.filter_eq_nil_iff.mpr (fun f hmem => by simp [(hf f hmem).2.1])
    have h3 : dir.files.filter (fun f => f.ext = "csv") = [] :=
      List.filter_eq_nil_iff.mpr (fun f hmem => by simp [(hf f hmem).2.2])
    simp [load_data, glob, h1, h2, h3]

/-- C2 witness: the missing directory and a directory holding only an
unrecognized extension both load to the empty registry. -/
theorem load_data_empty_witness :
    load_data none = [] ∧
    load_data (some (Directory.mk
      [⟨"notes", "txt", none, none, none, none⟩])) = [] := by
  constructor
  · exact load_data_empty_of_missing_or_unrecognized none (Or.inl rfl)
  · exact load_data_empty_of_missing_or_unrecognized _
      (Or.inr ⟨_, rfl, by decide⟩)

/-- C5: the registry never holds two entries for one stem — its key list
is duplicate-free, so a stem shared by several files resolves to a single
winner, never a duplicate or merged entry. -/
theorem load_data_keys_nodup (d : Option Directory) :
    ((load_data d).map Prod.fst).Nodup := by
  cases d with
  | none => exact List.nodup_nil
  | some dir =>
    unfold load_data
    refine foldl_nodup_keys _ _ (fun reg f h => ?_)
      _ (foldl_nodup_keys _ _ (fun reg f h => ?_)
        _ (foldl_nodup_keys _ _ (fun reg f h => ?_) _ List.nodup_nil))
    · unfold loadCsvFile
      cases f.parse_csv with
      | some t => exact Registry.nodup_keys_insert reg f.stem _ h
      | none => exact h
    · unfold loadGeojsonFile
      cases f.parse_geo with
      | some g => exact Registry.nodup_keys_insert reg f.stem _ h
      | none => exact h
    · unfold loadNcFile
      cases f.parse_dataset with
      | some d => exact Registry.nodup_keys_insert reg f.stem _ h
      | none =>
        cases f.parse_dataarray with
        | some a => exact Registry.nodup_keys_insert reg f.stem _ h
        | none => exact h

/-- C3: for a `.nc` file the loader tries the Multi-Variable Dataset parse
first — its success wins even when the array parse would also succeed —
falls back to the Single-Variable Array parse only when the first fails,
and when both parses fail it leaves the registry unchanged and propagates
no error (the step is a total function). -/
theorem loadNcFile_fallback_order (reg : Registry) (f : DataFile) :
    (∀ d, f.parse_dataset = some d →
      loadNcFile reg f = reg.insert f.stem (.dataset d)) ∧
    (f.parse_dataset = none → ∀ a, f.parse_dataarray = some a →
      loadNcFile reg f = reg.insert f.stem (.dataarray a)) ∧
    (f.parse_dataset = none → f.parse_dataarray = none →
      loadNcFile reg f = reg) := by
  refine ⟨fun d hd => ?_, fun h1 a ha => ?_, fun h1 h2 => ?_⟩ <;>
    simp [loadNcFile, *]

/-- C3 witness: the three behaviours at concrete files — a file parsing
both ways stores the Dataset variant, a file parsing only as an array
stores the array, a doubly corrupted file leaves the registry empty. -/
theorem loadNcFile_fallback_order_witness :
    loadNcFile [] ⟨"a", "nc", some ⟨[1]⟩, some ⟨[2]⟩, none, none⟩ =
      Registry.insert [] "a" (.dataset ⟨[1]⟩) ∧
    loadNcFile [] ⟨"a", "nc", none, some ⟨[2]⟩, none, none⟩ =
      Registry.insert [] "a" (.dataarray ⟨[2]⟩) ∧
    loadNcFile [] ⟨"a", "nc", none, none, none, none⟩ = [] :=
  ⟨(loadNcFile_fallback_order [] _).1 _ rfl,
    (loadNcFile_fallback_order [] _).2.1 rfl _ rfl,
    (loadNcFile_fallback_order [] _).2.2 rfl rfl⟩

/-- C6: every value held by the registry is exactly one of the four
variants — Gridded Multi-Variable Dataset, Gridded Single-Variable Array,
Vector Feature Collection, Tabular Record Set — and never a mixture: the
loader only ever stores values of the four-constructor sum
`DatasetValue`. -/
theorem load_data_values_four_variants (d : Option Directory) (k : String)
    (v : DatasetValue) (h : (load_data d).find k = some v) :
    (∃ g, v = .dataset g) ∨ (∃ a, v = .dataarray a) ∨
    (∃ g, v = .geodataframe g) ∨ (∃ t, v = .dataframe t) := by
  cases v with
  | dataset g => exact Or.inl ⟨g, rfl⟩
  | dataarray a => exact Or.inr (Or.inl ⟨a, rfl⟩)
  | geodataframe g => exact Or.inr (Or.inr (Or.inl ⟨g, rfl⟩))
  | dataframe t => exact Or.inr (Or.inr (Or.inr ⟨t, rfl⟩))

/-- C6 witness: instantiated at a directory holding one parsable `.csv`
file. -/
theorem load_data_values_four_variants_witness :
    (∃ g, DatasetValue.dataframe ⟨[]⟩ = DatasetValue.dataset g) ∨
    (∃ a, DatasetValue.dataframe ⟨[]⟩ = DatasetValue.dataarray a) ∨
    (∃ g, DatasetValue.dataframe ⟨[]⟩ = DatasetValue.geodataframe g) ∨
    (∃ t, DatasetValue.dataframe ⟨[]⟩ = DatasetValue.dataframe t) :=
  load_data_values_four_variants
    (some (Directory.mk [⟨"t", "csv", none, none, none, some ⟨[]⟩⟩]))
    "t" (DatasetValue.dataframe ⟨[]⟩) (by rfl)

/-- C7: two loads that see the same unchanged directory contents produce
registries with identical key sets and, at every key, equal mean and
quantile aggregates — the embedded loader is a pure, deterministic
function of the directory contents. -/
theorem load_data_idempotent (d1 d2 : Option Directory) (h : d1 = d2) :
    ((load_data d1).map Prod.fst = (load_data d2).map Prod.fst) ∧
    ∀ k : String,
      ((load_data d1).find k).bind DatasetValue.meanAgg
        = ((load_data d2).find k).bind DatasetValue.meanAgg ∧
      ∀ q : ℚ,
        ((load_data d1).find k).bind (DatasetValue.quantAgg q)
          = ((load_data d2).find k).bind (DatasetValue.quantAgg q) := by
  subst h
  exact ⟨rfl, fun _ => ⟨rfl, fun _ => rfl⟩⟩

/-- C7 witness: two loads of one concrete directory. -/
theorem load_data_idempotent_witness :
    ((load_data (some (Directory.mk [⟨"r", "nc", some ⟨[1, 2]⟩, none, none, none⟩]))).map
        Prod.fst =
      (load_data (some (Directory.mk [⟨"r", "nc", some ⟨[1, 2]⟩, none, none, none⟩]))).map
        Prod.fst) ∧
    ((load_data (some (Directory.mk [⟨"r", "nc", some ⟨[1, 2]⟩, none, none, none⟩]))).find
          "r").bind DatasetValue.meanAgg =
      ((load_data (some (Directory.mk [⟨"r", "nc", some ⟨[1, 2]⟩, none, none, none⟩]))).find
          "r").bind DatasetValue.meanAgg :=
  ⟨(load_data_idempotent _ _ rfl).1,
    ((load_data_idempotent _ _ rfl).2 "r").1⟩

theorem foldl_loadCsvFile_wins (l : List DataFile) (s : String)
    (h : ∃ f ∈ l, f.stem = s ∧ f.parse_csv ≠ none) (reg : Registry) :
    ∃ t, (l.foldl loadCsvFile reg).find s = some (.dataframe t) := by
  induction l generalizing reg with
  | nil => rcases h with ⟨f, hf, _⟩; cases hf
  | cons f l ih =>
    by_cases hl : ∃ g ∈ l, g.stem = s ∧ g.parse_csv ≠ none
    · exact ih hl (loadCsvFile reg f)
    · rcases h with ⟨g, hg, hgs, hgp⟩
      rcases List.mem_cons.mp hg with rfl | hgl
      · have hpres : ∀ r : Registry,
            (l.foldl loadCsvFile r).find s = r.find s := by
          intro r
          refine foldl_find_eq _ _ _
            (fun r' g' hg' => find_loadCsvFile r' g' s (fun hs => ?_)) r
          by_contra hne
          exact hl ⟨g', hg', hs, hne⟩
        cases hc : g.parse_csv with
        | none => exact absurd hc hgp
        | some t =>
          refine ⟨t, ?_⟩
          rw [List.foldl_cons, hpres]
          simp only [loadCsvFile, hc]
          rw [Registry.find_insert]
          simp [hgs]
      · exact absurd ⟨g, hgl, hgs, hgp⟩ hl

theorem foldl_loadGeojsonFile_wins (l : List DataFile) (s : String)
    (h : ∃ f ∈ l, f.stem = s ∧ f.parse_geo ≠ none) (reg : Registry) :
    ∃ g, (l.foldl loadGeojsonFile reg).find s = some (.geodataframe g) := by
  induction l generalizing reg with
  | nil => rcases h with ⟨f, hf, _⟩; cases hf
  | cons f l ih =>
    by_cases hl : ∃ g ∈ l, g.stem = s ∧ g.parse_geo ≠ none
    · exact ih hl (loadGeojsonFile reg f)
    · rcases h with ⟨g, hg, hgs, hgp⟩
      rcases List.mem_cons.mp hg with rfl | hgl
      · have hpres : ∀ r : Registry,
            (l.foldl loadGeojsonFile r).find s = r.find s := by
          intro r
          refine foldl_find_eq _ _ _
            (fun r' g' hg' => find_loadGeojsonFile r' g' s (fun hs => ?_)) r
          by_contra hne
          exact hl ⟨g', hg', hs, hne⟩
        cases hc : g.parse_geo with
        | none => exact absurd hc hgp
        | some v =>
          refine ⟨v, ?_⟩
          rw [List.foldl_cons, hpres]
          simp only [loadGeojsonFile, hc]
          rw [Registry.find_insert]
          simp [hgs]
      · exact absurd ⟨g, hgl, hgs, hgp⟩ hl

theorem foldl_loadNcFile_wins (l : List DataFile) (s : String)
    (h : ∃ f ∈ l, f.stem = s ∧
      (f.parse_dataset ≠ none ∨ f.parse_dataarray ≠ none)) (reg : Registry) :
    (∃ d, (l.foldl loadNcFile reg).find s = some (.dataset d)) ∨
    (∃ a, (l.foldl loadNcFile reg).find s = some (.dataarray a)) := by
  induction l generalizing reg with
  | nil => rcases h with ⟨f, hf, _⟩; cases hf
  | cons f l ih =>
    by_cases hl : ∃ g ∈ l, g.stem = s ∧
      (g.parse_dataset ≠ none ∨ g.parse_dataarray ≠ none)
    · exact ih hl (loadNcFile reg f)
    · rcases h with ⟨g, hg, hgs, hgp⟩
      rcases List.mem_cons.mp hg with rfl | hgl
      · have hpres : ∀ r : Registry,
            (l.foldl loadNcFile r).find s = r.find s := by
          intro r
          refine foldl_find_eq _ _ _
            (fun r' g' hg' => find_loadNcFile r' g' s (fun hs => ⟨?_, ?_⟩)) r
          · by_contra hne
            exact hl ⟨g', hg', hs, Or.inl hne⟩
          · by_contra hne
            exact hl ⟨g', hg', hs, Or.inr hne⟩
        rw [List.foldl_cons]
        cases hd : g.parse_dataset with
        | some d =>
          refine Or.inl ⟨d, ?_⟩
          rw [hpres]
          simp only [loadNcFile, hd]
          rw [Registry.find_insert]
          simp [hgs]
        | none =>
          cases ha : g.parse_dataarray with
          | some a =>
            refine Or.inr ⟨a, ?_⟩
            rw [hpres]
            simp only [loadNcFile, hd, ha]
            rw [Registry.find_insert]
            simp [hgs]
          | none =>
            rcases hgp with hp | hp
            · exact absurd hd hp
            · exact absurd ha hp
      · exact absurd ⟨g, hgl, hgs, hgp⟩ hl

/-- C4: `load_data` processes extension groups in the fixed order `.nc`,
then `.geojson`, then `.csv`, so when one stem appears under several
recognized extensions and more than one parses successfully, the later
group's entry overwrites the earlier one's — for every directory and every
listing order: a successfully parsed tabular file for a stem always wins;
a vector entry wins whenever no tabular file for that stem parses; a
gridded entry survives only when neither later group contributes (tabular
beats vector beats gridded). -/
theorem load_data_later_group_overwrites (dir : Directory) (s : String) :
    ((∃ f ∈ dir.files, f.ext = "csv" ∧ f.stem = s ∧ f.parse_csv ≠ none) →
      ∃ t, (load_data (some dir)).find s = some (.dataframe t)) ∧
    ((∀ f ∈ dir.files, f.ext = "csv" → f.stem = s → f.parse_csv = none) →
      (∃ f ∈ dir.files, f.ext = "geojson" ∧ f.stem = s ∧ f.parse_geo ≠ none) →
      ∃ g, (load_data (some dir)).find s = some (.geodataframe g)) ∧
    ((∀ f ∈ dir.files, f.ext = "csv" → f.stem = s → f.parse_csv = none) →
      (∀ f ∈ dir.files, f.ext = "geojson" → f.stem = s → f.parse_geo = none) →
      (∃ f ∈ dir.files, f.ext = "nc" ∧ f.stem = s ∧
        (f.parse_dataset ≠ none ∨ f.parse_dataarray ≠ none)) →
      (∃ d, (load_data (some dir)).find s = some (.dataset d)) ∨
      (∃ a, (load_data (some dir)).find s = some (.dataarray a))) := by
  have hld : load_data (some dir) =
      (glob dir "csv").foldl loadCsvFile
        ((glob dir "geojson").foldl loadGeojsonFile
          ((glob dir "nc").foldl loadNcFile [])) := rfl
  have hcsvpeel :
      (∀ f ∈ dir.files, f.ext = "csv" → f.stem = s → f.parse_csv = none) →
      ∀ r : Registry, ((glob dir "csv").foldl loadCsvFile r).find s = r.find s := by
    intro hno r
    refine foldl_find_eq _ _ _
      (fun r' f hf => find_loadCsvFile r' f s (fun hs => ?_)) r
    have hm := List.mem_filter.mp hf
    exact hno f hm.1 (by simpa using hm.2) hs
  have hgeopeel :
      (∀ f ∈ dir.files, f.ext = "geojson" → f.stem = s → f.parse_geo = none) →
      ∀ r : Registry,
        ((glob dir "geojson").foldl loadGeojsonFile r).find s = r.find s := by
    intro hno r
    refine foldl_find_eq _ _ _
      (fun r' f hf => find_loadGeojsonFile r' f s (fun hs => ?_)) r
    have hm := List.mem_filter.mp hf
    exact hno f hm.1 (by simpa using hm.2) hs
  rw [hld]
  refine ⟨fun hcsv => ?_, fun hno hgeo => ?_, fun hno1 hno2 hnc => ?_⟩
  · rcases hcsv with ⟨f, hf, he, hs, hp⟩
    exact foldl_loadCsvFile_wins _ s
      ⟨f, List.mem_filter.mpr ⟨hf, by simp [he]⟩, hs, hp⟩ _
  · rcases hgeo with ⟨f, hf, he, hs, hp⟩
    have hpeel := hcsvpeel hno
      ((glob dir "geojson").foldl loadGeojsonFile
        ((glob dir "nc").foldl loadNcFile []))
    rw [hpeel]
    exact foldl_loadGeojsonFile_wins _ s
      ⟨f, List.mem_filter.mpr ⟨hf, by simp [he]⟩, hs, hp⟩ _
  · rcases hnc with ⟨f, hf, he, hs, hp⟩
    have hpeel1 := hcsvpeel hno1
      ((glob dir "geojson").foldl loadGeojsonFile
        ((glob dir "nc").foldl loadNcFile []))
    have hpeel2 := hgeopeel hno2 ((glob dir "nc").foldl loadNcFile [])
    rw [hpeel1, hpeel2]
    exact foldl_loadNcFile_wins _ s
      ⟨f, List.mem_filter.mpr ⟨hf, by simp [he]⟩, hs, hp⟩ _

/-- C4 witness: all three precedence levels at concrete directories — the
tabular entry wins a three-extension collision listed gridded-first, the
vector entry wins an `.nc`+`.geojson` collision listed vector-first, and a
lone gridded file survives when no later group contributes. -/
theorem load_data_later_group_overwrites_witness :
    (∃ t, (load_data (some (Directory.mk
        [⟨"x", "nc", some ⟨[1]⟩, none, none, none⟩,
         ⟨"x", "geojson", none, none, some ⟨[]⟩, none⟩,
         ⟨"x", "csv", none, none, none, some ⟨[[("c", 5)]]⟩⟩]))).find "x" =
      some (.dataframe t)) ∧
    (∃ g, (load_data (some (Directory.mk
        [⟨"y", "geojson", none, none, some ⟨[[("a", 2)]]⟩, none⟩,
         ⟨"y", "nc", some ⟨[1]⟩, none, none, none⟩]))).find "y" =
      some (.geodataframe g)) ∧
    ((∃ d, (load_data (some (Directory.mk
        [⟨"z", "nc", some ⟨[3]⟩, none, none, none⟩]))).find "z" =
      some (.dataset d)) ∨
     (∃ a, (load_data (some (Directory.mk
        [⟨"z", "nc", some ⟨[3]⟩, none, none, none⟩]))).find "z" =
      some (.dataarray a))) := by
  refine ⟨?_, ?_, ?_⟩
  · exact (load_data_later_group_overwrites _ "x").1
      ⟨⟨"x", "csv", none, none, none, some ⟨[[("c", 5)]]⟩⟩,
        by simp, rfl, rfl, by simp⟩
  · exact (load_data_later_group_overwrites _ "y").2.1 (by simp)
      ⟨⟨"y", "geojson", none, none, some ⟨[[("a", 2)]]⟩, none⟩,
        by simp, rfl, rfl, by simp⟩
  · exact (load_data_later_group_overwrites _ "z").2.2 (by simp) (by simp)
      ⟨⟨"z", "nc", some ⟨[3]⟩, none, none, none⟩,
        by simp, rfl, rfl, Or.inl (by simp)⟩

/-- C9: a tabular `illegal_fishing_suspects` file with exactly three rows
whose parse succeeds lands in the registry under its stem with length 3,
and the illegal-activity column displays an alert count of 3. -/
theorem illegal_fishing_scenario_count (dir : Directory) (f : DataFile)
    (t : TabularRS)
    (hfiles : dir.files = [f]) (hext : f.ext = "csv")
    (hstem : f.stem = "illegal_fishing_suspects")
    (hparse : f.parse_csv = some t) (hrows : t.rows.length = 3) :
    (load_data (some dir)).find "illegal_fishing_suspects" =
      some (.dataframe t) ∧
    (DatasetValue.dataframe t).numRows = some 3 ∧
    renderAlertsMetric (load_data (some dir)) =
      some (.card 3 "VESSELS FLAGGED") := by
  have hfind : (load_data (some dir)).find "illegal_fishing_suspects" =
      some (.dataframe t) := by
    obtain ⟨st, e, pd, pa, pg, pc⟩ := f
    simp only at hext hstem hparse
    subst hext hstem hparse
    simp [hfiles, load_data, glob, loadCsvFile, Registry.find_insert]
  exact ⟨hfind, by simp [DatasetValue.numRows, hrows],
    by simp [renderAlertsMetric, hfind, DatasetValue.numRows, hrows]⟩

/-- C9 witness: the scenario at a concrete three-row table. -/
theorem illegal_fishing_scenario_count_witness :
    (load_data (some (Directory.mk
        [⟨"illegal_fishing_suspects", "csv", none, none, none,
          some ⟨[[("v", 1)], [("v", 2)], [("v", 3)]]⟩⟩]))).find
        "illegal_fishing_suspects" =
      some (.dataframe ⟨[[("v", 1)], [("v", 2)], [("v", 3)]]⟩) ∧
    (DatasetValue.dataframe
        ⟨[[("v", 1)], [("v", 2)], [("v", 3)]]⟩).numRows = some 3 ∧
    renderAlertsMetric (load_data (some (Directory.mk
        [⟨"illegal_fishing_suspects", "csv", none, none, none,
          some ⟨[[("v", 1)], [("v", 2)], [("v", 3)]]⟩⟩]))) =
      some (.card 3 "VESSELS FLAGGED") :=
  illegal_fishing_scenario_count _ _ _ rfl rfl rfl rfl rfl

/-- C10 counterexample: with `illegal_fishing_suspects` absent (empty
registry), the illegal-activity column does not display a neutral "not yet
available" placeholder — it displays the substantive all-clear metric card
asserting an alert count of 0, `✓ 0 / ALL CLEAR` (source lines 251-259),
the same card markup the data path uses. -/
theorem renderAlerts_absent_not_placeholder :
    Registry.find [] "illegal_fishing_suspects" = none ∧
    renderAlertsMetric [] = some (ColDisplay.card 0 "ALL CLEAR") ∧
    neutralPlaceholder (ColDisplay.card 0 "ALL CLEAR") = false :=
  ⟨rfl, rfl, rfl⟩

/-- C10 amended: every rendering path checks for the absence of its
expected key explicitly and never fails on a missing key; the risk,
habitat and connectivity columns and the 3D-map section then display
neutral placeholders ("Loading...", "N/A", an informational processing
hint), while the illegal-activity column instead displays a substantive
all-clear card with alert count 0. -/
theorem render_absent_key_behaviour (reg : Registry)
    (h1 : reg.find "overfishing_risk_index" = none)
    (h2 : reg.find "habitat_quality_index" = none)
    (h3 : reg.find "larval_connectivity" = none)
    (h4 : reg.find "illegal_fishing_suspects" = none) :
    (renderRiskMetric reg = some (.stMetric "Risk Index" "Loading...") ∧
      neutralPlaceholder (ColDisplay.stMetric "Risk Index" "Loading...") = true) ∧
    (renderHabitatMetric reg = some (.stMetric "Habitat Quality" "N/A") ∧
      neutralPlaceholder (ColDisplay.stMetric "Habitat Quality" "N/A") = true) ∧
    (renderConnectivityMetric reg = some (.stMetric "Connectivity" "N/A") ∧
      neutralPlaceholder (ColDisplay.stMetric "Connectivity" "N/A") = true) ∧
    renderAlertsMetric reg = some (.card 0 "ALL CLEAR") ∧
    create_risk_map_3d reg = none ∧
    renderTab1RiskMap reg = .infoMsg
      "Risk data is being processed. Please run the processing pipeline first." := by
  refine ⟨⟨?_, rfl⟩, ⟨?_, rfl⟩, ⟨?_, rfl⟩, ?_, ?_, ?_⟩ <;>
    simp [renderRiskMetric, renderHabitatMetric, renderConnectivityMetric,
      renderAlertsMetric, create_risk_map_3d, renderTab1RiskMap, h1, h2, h3, h4]

/-- C10 amended-claim witness: instantiated at the empty registry. -/
theorem render_absent_key_behaviour_witness :
    Registry.find [] "overfishing_risk_index" = none ∧
    renderRiskMetric [] = some (.stMetric "Risk Index" "Loading...") ∧
    renderTab1RiskMap [] = .infoMsg
      "Risk data is being processed. Please run the processing pipeline first." :=
  ⟨rfl, ((render_absent_key_behaviour [] rfl rfl rfl rfl).1).1,
    (render_absent_key_behaviour [] rfl rfl rfl rfl).2.2.2.2.2⟩

end MedGuard
